import Mathlib

/-!
Shallow embedding of the two Soroban contracts of this repository,
`contracts/crowdfund/src/lib.rs` and `contracts/OpenAnnot/src/lib.rs`:
a crowdfunding escrow fused with a pay-per-task data-annotation market.

Modelling conventions:
* `Address` is modelled as `Nat`, `Symbol` as `String`.
* `i128` amounts are modelled as `Int` (no claim under study depends on
  128-bit wraparound), `u64` timestamps and `u32` box coordinates as `Nat`.
* Soroban `Map` is modelled as an association list with `mapGet` / `mapSet`.
* The token-transfer capability is modelled by adjusting a `custody` field:
  the token balance held by the contract address.  A transfer into the
  contract adds to `custody`, a transfer out subtracts.
* `require_auth` is modelled by a predicate `auth : Nat → Bool` supplied by
  the host; a failing authentication aborts the call.
* A Rust `assert!` failure / `unwrap()` on `None` aborts the transaction;
  the hosting environment rolls every storage write back.  Operations are
  therefore modelled as `Except Err σ`, where `Except.error` means the call
  aborted and the pre-call state is retained unchanged.
-/

/-- Association-list lookup, modelling soroban `Map::get` (returns `None`
when the key is absent). -/
def mapGet {K V : Type} [DecidableEq K] (m : List (K × V)) (k : K) : Option V :=
  match m with
  | [] => none
  | (k', v) :: rest => if k' = k then some v else mapGet rest k

/-- `Map::get(..).unwrap_or(d)`. -/
def mapGetD {K V : Type} [DecidableEq K] (m : List (K × V)) (k : K) (d : V) : V :=
  (mapGet m k).getD d

/-- Association-list update, modelling soroban `Map::set` (replaces an
existing entry, otherwise appends a fresh one). -/
def mapSet {K V : Type} [DecidableEq K] (m : List (K × V)) (k : K) (v : V) : List (K × V) :=
  match m with
  | [] => [(k, v)]
  | (k', v') :: rest => if k' = k then (k, v) :: rest else (k', v') :: mapSet rest k v

/-- The four lifecycle states (`enum State`, stored as the ordinal 0-3). -/
inductive State : Type where
  | Funding
  | Annotating
  | Success
  | Expired
deriving DecidableEq

/-- The abort causes of a contract call, per the error taxonomy:
authorization failure (`require_auth`), precondition violation
(state `assert!` / state-dispatch `panic!`), validation failure
(non-positive amount, empty label) and lookup failure (`unwrap()` of a
missing map entry). -/
inductive Err : Type where
  | authFail
  | precondition (msg : String)
  | validation (msg : String)
  | lookupFailure
deriving DecidableEq

/-- One worker's labelling result (`struct Annotation`). -/
structure Annotation : Type where
  annotator : Nat
  posx : Nat
  posy : Nat
  width : Nat
  height : Nat
  label : String
deriving DecidableEq

/-- One data item requiring annotation (`struct DataPoint`). -/
structure DataPoint : Type where
  cid : String
  annotated : Bool
  annotations : List Annotation
deriving DecidableEq

/-- Result of an aborted-or-committed call: an `Except.error` rolls the
transaction back, so the pre-call state `d` is what persists. -/
def okOr {α : Type} (x : Except Err α) (d : α) : α :=
  match x with
  | .ok a => a
  | .error _ => d

/-- `true` iff the call committed. -/
def exceptOk {α : Type} (x : Except Err α) : Bool :=
  match x with
  | .ok _ => true
  | .error _ => false

namespace Crowdfund

/-- The instance storage of `contracts/crowdfund/src/lib.rs` (the `DataKey`
entries), bundled with `custody`, the token balance held by the contract
address — `get_balance` queries the token client for exactly that number. -/
structure Contract : Type where
  recipient : Nat
  started : Nat
  recipientClaimed : Bool
  deadline : Nat
  target_amount : Int
  users : List (Nat × Int)
  contributorsContributionMap : List (Nat × Int)
  annotatorsEarningsMap : List (Nat × Int)
  dataPoints : List (String × DataPoint)
  state : State
  custody : Int
deriving DecidableEq

/-- `get_user_deposited`: the `DataKey::User(user)` entry, default 0. -/
def get_user_deposited (s : Contract) (user : Nat) : Int :=
  mapGetD s.users user 0

/-- `set_user_deposited`: stores the `DataKey::User(user)` entry (a plain
overwrite in this contract). -/
def set_user_deposited (s : Contract) (user : Nat) (amount : Int) : Contract :=
  { s with users := mapSet s.users user amount }

/-- `target_reached`: token balance of the contract ≥ target amount. -/
def target_reached (s : Contract) : Bool :=
  s.target_amount ≤ s.custody

/-- The `Funding` block of `get_state` (lib.rs lines 142-149): first, if the
target is reached, the stored state is set to `Annotating`; then — not an
else-branch — if the deadline has passed, the stored state is overwritten
with `Expired`. -/
def fundingStep (s : Contract) (now : Nat) : Contract :=
  if s.state = State.Funding then
    let sa := if target_reached s then { s with state := State.Annotating } else s
    if s.deadline < now then { sa with state := State.Expired } else sa
  else s

/-- The `Annotating` block of `get_state` (lib.rs lines 150-154): checked
against the state read at the *start* of the call (`s0`), not the possibly
just-updated stored state (`s1`). -/
def annotatingStep (s0 s1 : Contract) : Contract :=
  if s0.state = State.Annotating then
    if s1.custody < 1 then { s1 with state := State.Success } else s1
  else s1

/-- `get_state` (lib.rs lines 134-156): derive the effective state,
persisting any transition, and return the freshly re-read stored state. -/
def getState (s : Contract) (now : Nat) : State × Contract :=
  if s.state = State.Expired then (s.state, s)
  else
    ((annotatingStep s (fundingStep s now)).state, annotatingStep s (fundingStep s now))

/-- `initialize` (lib.rs lines 184-223), on a fresh instance: no validation
of the numeric arguments, seeds one empty `DataPoint` per cid, stores state
`Funding`.  A freshly deployed contract holds no tokens, so `custody = 0`. -/
def initContract (recipient : Nat) (now : Nat) (deadline : Nat) (target_amount : Int)
    (data_point_cids : List String) : Contract :=
  { recipient := recipient
    started := now
    recipientClaimed := false
    deadline := deadline
    target_amount := target_amount
    users := []
    contributorsContributionMap := []
    annotatorsEarningsMap := []
    dataPoints := data_point_cids.foldl
      (fun m cid => mapSet m cid { cid := cid, annotated := false, annotations := [] }) []
    state := State.Funding
    custody := 0 }

/-- `contribute` (lib.rs lines 255-280): auth, positive amount, derived
state `Funding`; then add `amount` to `DataKey::User(user)`, transfer the
tokens into custody, and add `amount` to the contributors map. -/
def contribute (s : Contract) (now : Nat) (auth : Nat → Bool) (user : Nat)
    (amount : Int) : Except Err Contract :=
  if auth user then
    if 0 < amount then
      if (getState s now).1 = State.Funding then
        let s1 := (getState s now).2
        let b := mapGetD s1.users user 0
        let s2 := { s1 with users := mapSet s1.users user (b + amount) }
        let s3 := { s2 with custody := s2.custody + amount }
        let c0 := mapGetD s3.contributorsContributionMap user 0
        .ok { s3 with contributorsContributionMap :=
                mapSet s3.contributorsContributionMap user (c0 + amount) }
      else .error (Err.precondition "sale is not running")
    else .error (Err.validation "amount must be positive")
  else .error Err.authFail

/-- `submit` (lib.rs lines 282-328): auth, then dispatch on the derived
state.  `Funding` and `Expired` abort; `Annotating` requires a non-empty
label, looks the task up (`unwrap()` aborts on a missing cid), appends one
`Annotation`, marks the task annotated and pays one token unit out of
custody; `Success` is the refund path: it pays the caller's deposited
balance back and zeroes the `DataKey::User` entry. -/
def submit (s : Contract) (now : Nat) (auth : Nat → Bool) (toAddr : Nat)
    (data_point_cid : String) (posy posx width height : Nat) (label : String) :
    Except Err Contract :=
  if auth toAddr then
    match (getState s now).1 with
    | State.Funding => .error (Err.precondition "sale is still running")
    | State.Annotating =>
      if label = "" then .error (Err.validation "label cannot be empty")
      else
        match mapGet ((getState s now).2).dataPoints data_point_cid with
        | none => .error Err.lookupFailure
        | some dp =>
          let dp2 := { dp with
            annotated := true
            annotations := dp.annotations ++
              [{ annotator := toAddr, posx := posx, posy := posy,
                 width := width, height := height, label := label }] }
          let s2 := { (getState s now).2 with
                      dataPoints := mapSet ((getState s now).2).dataPoints data_point_cid dp2 }
          .ok { s2 with custody := s2.custody - 1 }
    | State.Success =>
      let s1 := (getState s now).2
      let b := get_user_deposited s1 toAddr
      let s2 := set_user_deposited s1 toAddr 0
      .ok { s2 with custody := s2.custody - b }
    | State.Expired => .error (Err.precondition "Withdraw, expired")
  else .error Err.authFail

/-- `withdraw` (lib.rs lines 330-336): the `Expired` state assertion comes
first, `require_auth` only after it; then the user's deposit entry is read,
overwritten with 0, and that amount is transferred back out of custody. -/
def withdraw (s : Contract) (now : Nat) (auth : Nat → Bool) (user : Nat) :
    Except Err Contract :=
  if (getState s now).1 = State.Expired then
    if auth user then
      let s1 := (getState s now).2
      let b := get_user_deposited s1 user
      let s2 := set_user_deposited s1 user 0
      .ok { s2 with custody := s2.custody - b }
    else .error Err.authFail
  else .error (Err.precondition "not expired")

/-- On a record stored `Expired`, `get_state` returns immediately. -/
theorem cf_getState_expired (s : Contract) (now : Nat) (h : s.state = State.Expired) :
    getState s now = (State.Expired, s) := by
  simp [getState, h]

/-- On a record stored `Success`, `get_state` changes nothing. -/
theorem cf_getState_success (s : Contract) (now : Nat) (h : s.state = State.Success) :
    getState s now = (State.Success, s) := by
  simp [getState, fundingStep, annotatingStep, h]

/-- On a record stored `Annotating`, `get_state` flips to `Success` exactly
when custody has dropped below one unit. -/
theorem cf_getState_annotating (s : Contract) (now : Nat) (h : s.state = State.Annotating) :
    getState s now =
      if s.custody < 1 then (State.Success, { s with state := State.Success })
      else (State.Annotating, s) := by
  by_cases hb : s.custody < 1 <;> simp [getState, fundingStep, annotatingStep, h, hb]

/-- On a record stored `Funding`: a passed deadline wins (even when the
target is also reached, because the deadline check is not an else-branch);
otherwise a reached target flips to `Annotating`; otherwise nothing moves. -/
theorem cf_getState_funding (s : Contract) (now : Nat) (h : s.state = State.Funding) :
    getState s now =
      if s.deadline < now then (State.Expired, { s with state := State.Expired })
      else if s.target_amount ≤ s.custody then
        (State.Annotating, { s with state := State.Annotating })
      else (State.Funding, s) := by
  by_cases hd : s.deadline < now <;> by_cases ht : s.target_amount ≤ s.custody <;>
    simp [getState, fundingStep, annotatingStep, target_reached, h, hd, ht]

end Crowdfund

namespace OpenAnnot

/-- The per-project aggregate of `contracts/OpenAnnot/src/lib.rs`
(`struct Project`). -/
structure Project : Type where
  id : Nat
  name : String
  description : String
  recipient : Nat
  started : Nat
  deadline : Nat
  target_amount : Int
  current_amount : Int
  data_points : List (String × DataPoint)
  contributors_contribution_map : List (Nat × Int)
  annotators_earning_map : List (Nat × Int)
  state : State
deriving DecidableEq

/-- A project together with `custody`, the token balance actually held by
the contract address (this contract is its own token, and every
`client.transfer` moves real tokens in or out of that balance; the stored
`current_amount` field is a separate, cached number). -/
structure Chain : Type where
  project : Project
  custody : Int
deriving DecidableEq

/-- `get_balance` (lib.rs lines 111-118): returns the stored
`current_amount` field — not the token balance. -/
def get_balance (p : Project) : Int :=
  p.current_amount

/-- `get_user_deposited` (lib.rs lines 99-109): the contributors map entry,
default 0. -/
def get_user_deposited (p : Project) (user : Nat) : Int :=
  mapGetD p.contributors_contribution_map user 0

/-- `set_user_deposited` (lib.rs lines 189-205): despite its name it *adds*
`amount` to the current contributors map entry rather than overwriting it
(`current_contributions + amount`). -/
def set_user_deposited (p : Project) (user : Nat) (amount : Int) : Project :=
  let cur := mapGetD p.contributors_contribution_map user 0
  { p with contributors_contribution_map :=
      mapSet p.contributors_contribution_map user (cur + amount) }

/-- `target_reached` (lib.rs lines 120-128): `get_balance`
(= `current_amount`) ≥ `target_amount`. -/
def target_reached (p : Project) : Bool :=
  p.target_amount ≤ get_balance p

/-- The `Funding` block of `get_state` (lib.rs lines 144-167): first, if the
target is reached, the stored state is set to `Annotating`; then — not an
else-branch — if the deadline has passed, the stored state is overwritten
with `Expired`. -/
def fundingStep (p : Project) (now : Nat) : Project :=
  if p.state = State.Funding then
    let pa := if target_reached p then { p with state := State.Annotating } else p
    if p.deadline < now then { pa with state := State.Expired } else pa
  else p

/-- The `Annotating` block of `get_state` (lib.rs lines 168-180): checked
against the state read at the *start* of the call (`p0`), not the possibly
just-updated stored record (`p1`); the balance it compares is
`get_balance`, i.e. the stored `current_amount`. -/
def annotatingStep (p0 p1 : Project) : Project :=
  if p0.state = State.Annotating then
    if get_balance p1 < 1 then { p1 with state := State.Success } else p1
  else p1

/-- `get_state` (lib.rs lines 130-187): derive the effective state,
persisting any transition, and return the freshly re-read stored state. -/
def getState (p : Project) (now : Nat) : State × Project :=
  if p.state = State.Expired then (p.state, p)
  else
    ((annotatingStep p (fundingStep p now)).state, annotatingStep p (fundingStep p now))

/-- `contribute` (lib.rs lines 335-374): auth, positive amount, derived
state `Funding`; then `set_user_deposited(user, balance + amount)` (which,
because `set_user_deposited` adds, stores `2*balance + amount`), transfer
the tokens into custody, and add `amount` to the contributors map once
more inline.  `current_amount` is never written. -/
def contribute (c : Chain) (now : Nat) (auth : Nat → Bool) (user : Nat)
    (amount : Int) : Except Err Chain :=
  if auth user then
    if 0 < amount then
      if (getState c.project now).1 = State.Funding then
        let p1 := (getState c.project now).2
        let b := get_user_deposited p1 user
        let p2 := set_user_deposited p1 user (b + amount)
        let cur := mapGetD p2.contributors_contribution_map user 0
        let p3 := { p2 with contributors_contribution_map :=
                      mapSet p2.contributors_contribution_map user (cur + amount) }
        .ok { project := p3, custody := c.custody + amount }
      else .error (Err.precondition "sale is not running")
    else .error (Err.validation "amount must be positive")
  else .error Err.authFail

/-- `submit` (lib.rs lines 394-455): auth, then dispatch on the derived
state.  `Funding` and `Expired` abort; `Annotating` requires a non-empty
label, looks the task up (`unwrap()` aborts on a missing cid), appends one
`Annotation`, marks the task annotated, pays one token unit out of custody
and re-derives the state; `Success` is the refund path: it pays the
caller's ledger balance out of custody and calls
`set_user_deposited(to, 0)` — which, because `set_user_deposited` adds,
leaves the ledger entry unchanged. -/
def submit (c : Chain) (now : Nat) (auth : Nat → Bool) (toAddr : Nat)
    (data_point_cid : String) (posy posx width height : Nat) (label : String) :
    Except Err Chain :=
  if auth toAddr then
    match (getState c.project now).1 with
    | State.Funding => .error (Err.precondition "sale is still running")
    | State.Annotating =>
      if label = "" then .error (Err.validation "label cannot be empty")
      else
        match mapGet ((getState c.project now).2).data_points data_point_cid with
        | none => .error Err.lookupFailure
        | some dp =>
          let dp2 := { dp with
            annotated := true
            annotations := dp.annotations ++
              [{ annotator := toAddr, posx := posx, posy := posy,
                 width := width, height := height, label := label }] }
          let p2 := { (getState c.project now).2 with
                      data_points := mapSet ((getState c.project now).2).data_points
                        data_point_cid dp2 }
          .ok { project := (getState p2 now).2, custody := c.custody - 1 }
    | State.Success =>
      let p1 := (getState c.project now).2
      let b := get_user_deposited p1 toAddr
      let p2 := set_user_deposited p1 toAddr 0
      .ok { project := p2, custody := c.custody - b }
    | State.Expired => .error (Err.precondition "Withdraw, expired")
  else .error Err.authFail

/-- `withdraw` (lib.rs lines 457-463): the `Expired` state assertion comes
first, `require_auth` only after it; then the user's ledger entry is read,
`set_user_deposited(user, 0)` is called — which, because
`set_user_deposited` adds, leaves the entry unchanged — and that amount is
transferred back out of custody. -/
def withdraw (c : Chain) (now : Nat) (auth : Nat → Bool) (user : Nat) :
    Except Err Chain :=
  if (getState c.project now).1 = State.Expired then
    if auth user then
      let p1 := (getState c.project now).2
      let b := get_user_deposited p1 user
      let p2 := set_user_deposited p1 user 0
      .ok { project := p2, custody := c.custody - b }
    else .error Err.authFail
  else .error (Err.precondition "not expired")

/-- On a record stored `Expired`, `get_state` returns immediately. -/
theorem oa_getState_expired (p : Project) (now : Nat) (h : p.state = State.Expired) :
    getState p now = (State.Expired, p) := by
  simp [getState, h]

/-- On a record stored `Success`, `get_state` changes nothing. -/
theorem oa_getState_success (p : Project) (now : Nat) (h : p.state = State.Success) :
    getState p now = (State.Success, p) := by
  simp [getState, fundingStep, annotatingStep, h]

/-- On a record stored `Annotating`, `get_state` flips to `Success` exactly
when the stored `current_amount` is below one. -/
theorem oa_getState_annotating (p : Project) (now : Nat) (h : p.state = State.Annotating) :
    getState p now =
      if p.current_amount < 1 then (State.Success, { p with state := State.Success })
      else (State.Annotating, p) := by
  by_cases hb : p.current_amount < 1 <;>
    simp [getState, fundingStep, annotatingStep, get_balance, h, hb]

/-- On a record stored `Funding`: a passed deadline wins (even when the
target is also reached, because the deadline check is not an else-branch);
otherwise a reached target flips to `Annotating`; otherwise nothing moves. -/
theorem oa_getState_funding (p : Project) (now : Nat) (h : p.state = State.Funding) :
    getState p now =
      if p.deadline < now then (State.Expired, { p with state := State.Expired })
      else if p.target_amount ≤ p.current_amount then
        (State.Annotating, { p with state := State.Annotating })
      else (State.Funding, p) := by
  by_cases hd : p.deadline < now <;> by_cases ht : p.target_amount ≤ p.current_amount <;>
    simp [getState, fundingStep, annotatingStep, target_reached, get_balance, h, hd, ht]

end OpenAnnot

/-- `get_state` of the crowdfund contract writes nothing but the state tag:
the record it persists is the input record with only `state` replaced. -/
theorem Crowdfund.cf_getState_snd_eq (s : Crowdfund.Contract) (now : Nat) :
    (Crowdfund.getState s now).2 = { s with state := (Crowdfund.getState s now).1 } := by
  cases hs : s.state
  case Funding =>
    rw [Crowdfund.cf_getState_funding s now hs]
    split_ifs <;> first | rfl | rw [← hs]
  case Annotating =>
    rw [Crowdfund.cf_getState_annotating s now hs]
    split_ifs <;> first | rfl | rw [← hs]
  case Success =>
    rw [Crowdfund.cf_getState_success s now hs, ← hs]
  case Expired =>
    rw [Crowdfund.cf_getState_expired s now hs, ← hs]

/-- `get_state` of the OpenAnnot contract writes nothing but the state tag. -/
theorem OpenAnnot.oa_getState_snd_eq (p : OpenAnnot.Project) (now : Nat) :
    (OpenAnnot.getState p now).2 = { p with state := (OpenAnnot.getState p now).1 } := by
  cases hs : p.state
  case Funding =>
    rw [OpenAnnot.oa_getState_funding p now hs]
    split_ifs <;> first | rfl | rw [← hs]
  case Annotating =>
    rw [OpenAnnot.oa_getState_annotating p now hs]
    split_ifs <;> first | rfl | rw [← hs]
  case Success =>
    rw [OpenAnnot.oa_getState_success p now hs, ← hs]
  case Expired =>
    rw [OpenAnnot.oa_getState_expired p now hs, ← hs]

/-- Updating a key leaves every other key's entry untouched, so a `Map::set`
on one task never changes another task. -/
theorem mapGet_mapSet_ne {K V : Type} [DecidableEq K] (m : List (K × V)) (k k' : K)
    (v : V) (h : k' ≠ k) : mapGet (mapSet m k v) k' = mapGet m k' := by
  induction m with
  | nil => simp [mapGet, mapSet, h, Ne.symm h]
  | cons hd tl ih =>
    obtain ⟨k0, v0⟩ := hd
    by_cases h0 : k0 = k <;> by_cases h1 : k0 = k' <;>
      simp_all [mapGet, mapSet]

/-- Updating a key stores exactly the given entry at that key. -/
theorem mapGet_mapSet_eq {K V : Type} [DecidableEq K] (m : List (K × V)) (k : K)
    (v : V) : mapGet (mapSet m k v) k = some v := by
  induction m with
  | nil => simp [mapGet, mapSet]
  | cons hd tl ih =>
    obtain ⟨k0, v0⟩ := hd
    by_cases h0 : k0 = k <;> simp_all [mapGet, mapSet]

/-- Every principal authenticates. -/
def allAuth : Nat → Bool := fun _ => true

/-- No principal authenticates. -/
def noAuth : Nat → Bool := fun _ => false

/-- A fresh OpenAnnot project: state `Funding`, target 10, deadline 100,
nothing contributed yet. -/
def sampleProject : OpenAnnot.Project :=
  { id := 0, name := "p", description := "d", recipient := 1, started := 0,
    deadline := 100, target_amount := 10, current_amount := 0,
    data_points := [], contributors_contribution_map := [],
    annotators_earning_map := [], state := State.Funding }

/-- The fresh OpenAnnot project together with an empty custody balance. -/
def sampleChain : OpenAnnot.Chain := { project := sampleProject, custody := 0 }

/-- An expired OpenAnnot project in which user 7 has 10 units on the
contribution ledger, all of it held in custody. -/
def expiredChain : OpenAnnot.Chain :=
  { project := { sampleProject with
      state := State.Expired
      contributors_contribution_map := [(7, 10)] }
    custody := 10 }

/-- A fresh crowdfund instance: state `Funding`, target 10, deadline 100. -/
def sampleContract : Crowdfund.Contract :=
  { recipient := 1, started := 0, recipientClaimed := false, deadline := 100,
    target_amount := 10, users := [], contributorsContributionMap := [],
    annotatorsEarningsMap := [], dataPoints := [], state := State.Funding,
    custody := 0 }

/-- The OpenAnnot chain persisting after `contribute(user 7, amount 5)` on
the fresh sample project (the same call the crowdfund variant receives in
`contribute_double_counts_ledger`). -/
def contributed : OpenAnnot.Chain :=
  okOr (OpenAnnot.contribute sampleChain 0 allAuth 7 5) sampleChain

/-- The crowdfund instance persisting after `contribute(user 7, amount 5)`
on the fresh sample instance. -/
def contributedCf : Crowdfund.Contract :=
  okOr (Crowdfund.contribute sampleContract 0 allAuth 7 5) sampleContract

/-- C1: the claim says a first contribution of 5 leaves the ledger entry at
exactly 5.  The crowdfund contract does store 5, but the OpenAnnot contract
stores 10: its `set_user_deposited` adds its argument to the existing entry
instead of overwriting it, so `contribute` first stores `b + (b + amount)`
and then adds `amount` once more inline — a first contribution of `a` lands
at `2a`. -/
theorem contribute_double_counts_ledger :
    OpenAnnot.get_user_deposited contributed.project 7 = 10 ∧
    Crowdfund.get_user_deposited contributedCf 7 = 5 ∧
    (10 : Int) ≠ 0 + 5 := by
  decide

/-- C2: the claim says `current_amount` mirrors custody and grows by
`amount` on each contribution.  In the OpenAnnot contract `current_amount`
is written only by `initialize` (to 0) and never recomputed: after the
sample contribution the custody balance is 5 while `current_amount` is
still 0, so `target_reached` and the Annotating-to-Success check read a
number that reflects no transfer at all. -/
theorem current_amount_never_updated :
    sampleChain.project.current_amount = 0 ∧
    contributed.custody = 5 ∧
    contributed.project.current_amount = 0 ∧
    (0 : Int) ≠ 5 := by
  decide

/-- The chain persisting after one `withdraw(user 7)` on the expired sample
project. -/
def withdrawnOnce : OpenAnnot.Chain :=
  okOr (OpenAnnot.withdraw expiredChain 200 allAuth 7) expiredChain

/-- The chain persisting after a second `withdraw(user 7)`. -/
def withdrawnTwice : OpenAnnot.Chain :=
  okOr (OpenAnnot.withdraw withdrawnOnce 200 allAuth 7) withdrawnOnce

/-- C3: the claim says a refund zeroes the ledger entry, so a second
withdraw transfers zero.  In the OpenAnnot contract
`set_user_deposited(user, 0)` *adds* 0 instead of overwriting, so after the
first withdraw user 7's entry is still 10 (custody correctly dropped by
10), and the second withdraw transfers the full 10 again, driving custody
to -10 — a double refund. -/
theorem withdraw_double_refund :
    OpenAnnot.get_user_deposited withdrawnOnce.project 7 = 10 ∧
    withdrawnOnce.custody = 0 ∧
    OpenAnnot.get_user_deposited withdrawnTwice.project 7 = 10 ∧
    withdrawnTwice.custody = -10 ∧
    (10 : Int) ≠ 0 := by
  decide

/-- A crowdfund instance stored `Funding` whose custody already meets the
target while the deadline (10) lies in the past at observation time 11. -/
def fundedPastDeadline : Crowdfund.Contract :=
  { sampleContract with target_amount := 5, custody := 5, deadline := 10 }

/-- C4 counterexample: stored state `Funding` with custody ≥ target, yet
`get_state` at time 11 > deadline 10 returns `Expired`, not `Annotating` —
the deadline comparison is not an else-branch and its write wins. -/
theorem funding_target_past_deadline_expired_cex :
    fundedPastDeadline.state = State.Funding ∧
    fundedPastDeadline.target_amount ≤ fundedPastDeadline.custody ∧
    (Crowdfund.getState fundedPastDeadline 11).1 = State.Expired ∧
    State.Expired ≠ State.Annotating := by
  decide

/-- C4 amended: on a stored-`Funding` project with custody ≥ target, the
target check does run first and writes `Annotating`, and the call returns
`Annotating` — but only when the deadline has not passed; the deadline
comparison also runs (it is a second `if`, not an else-branch) and
overwrites the state with `Expired` when `now > deadline`. -/
theorem funding_target_deadline_amended (s : Crowdfund.Contract) (now : Nat)
    (h : s.state = State.Funding) (ht : s.target_amount ≤ s.custody) :
    (now ≤ s.deadline →
      Crowdfund.getState s now = (State.Annotating, { s with state := State.Annotating })) ∧
    (s.deadline < now → (Crowdfund.getState s now).1 = State.Expired) := by
  rw [Crowdfund.cf_getState_funding s now h]
  constructor
  · intro hle
    have hd : ¬ s.deadline < now := Nat.not_lt.mpr hle
    simp [hd, ht]
  · intro hlt
    simp [hlt]

/-- Witness for the amended C4 theorem at a concrete input (observation
time 5, before the deadline): the call transitions to and returns
`Annotating`. -/
theorem funding_target_deadline_amended_witness :
    (5 ≤ fundedPastDeadline.deadline →
      Crowdfund.getState fundedPastDeadline 5 =
        (State.Annotating, { fundedPastDeadline with state := State.Annotating })) ∧
    (fundedPastDeadline.deadline < 5 →
      (Crowdfund.getState fundedPastDeadline 5).1 = State.Expired) :=
  funding_target_deadline_amended fundedPastDeadline 5 (by decide) (by decide)

/-- A crowdfund instance stored `Funding` with target 0 and custody 0: the
target is met while custody is below one unit. -/
def zeroTargetFunding : Crowdfund.Contract :=
  { sampleContract with target_amount := 0, custody := 0, deadline := 10 }

/-- C5 counterexample: two immediate successive `state()` calls disagree.
On `zeroTargetFunding` (stored `Funding`, target already met by a custody
below one unit, deadline not passed) the first call returns `Annotating`;
the second call, now reading stored `Annotating` with custody < 1, returns
`Success` and persists a different record. -/
theorem state_twice_nonidempotent_cex :
    (Crowdfund.getState zeroTargetFunding 5).1 = State.Annotating ∧
    (Crowdfund.getState (Crowdfund.getState zeroTargetFunding 5).2 5).1 = State.Success ∧
    State.Annotating ≠ State.Success := by
  decide

/-- C5 amended: `state()` is idempotent — the second call returns the same
value and persists the same record — for every stored record except the one
corner in which the first call itself transitions `Funding → Annotating`
with custody < 1 (target ≤ custody < 1, deadline not passed); there the
first call returns `Annotating` and the second advances to `Success`. -/
theorem state_idempotent_outside_corner (s : Crowdfund.Contract) (now : Nat)
    (h : ¬ (s.state = State.Funding ∧ s.target_amount ≤ s.custody ∧
            s.custody < 1 ∧ now ≤ s.deadline)) :
    Crowdfund.getState (Crowdfund.getState s now).2 now = Crowdfund.getState s now := by
  cases hs : s.state
  case Funding =>
    rw [Crowdfund.cf_getState_funding s now hs]
    by_cases hd : s.deadline < now
    · simp only [hd, if_true]
      exact Crowdfund.cf_getState_expired _ now rfl
    · by_cases ht : s.target_amount ≤ s.custody
      · simp only [hd, if_false, ht, if_true]
        have hb : ¬ s.custody < 1 := by
          intro hb
          exact h ⟨hs, ht, hb, Nat.not_lt.mp hd⟩
        rw [Crowdfund.cf_getState_annotating _ now rfl]
        simp [hb]
      · simp only [hd, if_false, ht]
        rw [Crowdfund.cf_getState_funding s now hs]
        simp [hd, ht]
  case Annotating =>
    rw [Crowdfund.cf_getState_annotating s now hs]
    by_cases hb : s.custody < 1
    · simp only [hb, if_true]
      exact Crowdfund.cf_getState_success _ now rfl
    · simp only [hb, if_false]
      rw [Crowdfund.cf_getState_annotating s now hs]
      simp [hb]
  case Success =>
    rw [Crowdfund.cf_getState_success s now hs]
    exact Crowdfund.cf_getState_success s now hs
  case Expired =>
    rw [Crowdfund.cf_getState_expired s now hs]
    exact Crowdfund.cf_getState_expired s now hs

/-- Witness for the amended C5 theorem at a concrete input (the fresh
sample instance, which is outside the corner): both calls agree. -/
theorem state_idempotent_outside_corner_witness :
    Crowdfund.getState (Crowdfund.getState sampleContract 0).2 0 =
      Crowdfund.getState sampleContract 0 :=
  state_idempotent_outside_corner sampleContract 0 (by decide)

/-- C6: `Expired` is absorbing.  On a project whose stored state is
`Expired`, `get_state` returns `Expired` without touching the record, and
whatever each public operation does (commit or abort), the state that
persists afterwards is still `Expired`: `contribute` and `submit` abort on
the `Expired` dispatch, and `withdraw` commits without writing the state
field. -/
theorem expired_absorbing (c : OpenAnnot.Chain) (now : Nat) (auth : Nat → Bool)
    (user : Nat) (amount : Int) (toAddr : Nat) (cid : String)
    (posy posx width height : Nat) (label : String)
    (h : c.project.state = State.Expired) :
    OpenAnnot.getState c.project now = (State.Expired, c.project) ∧
    (okOr (OpenAnnot.contribute c now auth user amount) c).project.state = State.Expired ∧
    (okOr (OpenAnnot.submit c now auth toAddr cid posy posx width height label) c).project.state
      = State.Expired ∧
    (okOr (OpenAnnot.withdraw c now auth user) c).project.state = State.Expired := by
  have hg := OpenAnnot.oa_getState_expired c.project now h
  refine ⟨hg, ?_, ?_, ?_⟩
  · unfold OpenAnnot.contribute
    rw [hg]
    split_ifs <;> simp_all [okOr]
  · unfold OpenAnnot.submit
    rw [hg]
    split_ifs <;> simp_all [okOr]
  · unfold OpenAnnot.withdraw
    rw [hg]
    split_ifs <;> simp_all [okOr, OpenAnnot.set_user_deposited]

/-- Witness for the C6 theorem at a concrete input: the expired sample
chain, with every principal authenticating. -/
theorem expired_absorbing_witness :
    OpenAnnot.getState expiredChain.project 3 = (State.Expired, expiredChain.project) ∧
    (okOr (OpenAnnot.contribute expiredChain 3 allAuth 7 5) expiredChain).project.state
      = State.Expired ∧
    (okOr (OpenAnnot.submit expiredChain 3 allAuth 8 "a" 1 2 3 4 "cat") expiredChain).project.state
      = State.Expired ∧
    (okOr (OpenAnnot.withdraw expiredChain 3 allAuth 7) expiredChain).project.state
      = State.Expired :=
  expired_absorbing expiredChain 3 allAuth 7 5 8 "a" 1 2 3 4 "cat" (by decide)

/-- The record a successful annotation-era `submit` persists: the post
`get_state` record with the task's entry replaced (annotated, one more
`Annotation` appended) and one token unit paid out of custody. -/
def rewardOutcome (s : Crowdfund.Contract) (toAddr : Nat) (cid : String)
    (posy posx width height : Nat) (label : String) (dp : DataPoint) :
    Crowdfund.Contract :=
  { s with
    state := State.Annotating
    dataPoints := mapSet s.dataPoints cid
      { dp with
        annotated := true
        annotations := dp.annotations ++
          [{ annotator := toAddr, posx := posx, posy := posy,
             width := width, height := height, label := label }] }
    custody := s.custody - 1 }

/-- C7: reward conservation in `Annotating`.  When the derived state is
`Annotating`, the caller authenticates, the label is non-empty and the task
exists, `submit` commits exactly `rewardOutcome`: custody drops by exactly
one unit, the named task gains exactly one appended `Annotation` carrying
that annotator, box and label, and is marked annotated (`mapSet` touches no
other task, by `mapGet_mapSet_ne`); and if custody thereby dropped below 1,
the next state observation reports `Success`. -/
theorem submit_reward_conservation (s : Crowdfund.Contract) (now : Nat)
    (auth : Nat → Bool) (toAddr : Nat) (cid : String)
    (posy posx width height : Nat) (label : String) (dp : DataPoint)
    (h1 : (Crowdfund.getState s now).1 = State.Annotating)
    (h2 : auth toAddr = true)
    (h3 : label ≠ "")
    (h4 : mapGet s.dataPoints cid = some dp) :
    Crowdfund.submit s now auth toAddr cid posy posx width height label =
      Except.ok (rewardOutcome s toAddr cid posy posx width height label dp) ∧
    (s.custody - 1 < 1 →
      (Crowdfund.getState (rewardOutcome s toAddr cid posy posx width height label dp) now).1
        = State.Success) := by
  constructor
  · unfold Crowdfund.submit
    rw [h2, if_pos rfl, h1]
    rw [Crowdfund.cf_getState_snd_eq s now, h1]
    simp only [h3, if_neg]
    simp [h4, rewardOutcome]
  · intro hb
    rw [Crowdfund.cf_getState_annotating _ now rfl]
    simp only [rewardOutcome, hb]
    simp

/-- A crowdfund instance in `Annotating` holding exactly one unit of
custody and one unannotated task "a". -/
def annotatingContract : Crowdfund.Contract :=
  { sampleContract with
    state := State.Annotating
    target_amount := 5
    custody := 1
    dataPoints := [("a", { cid := "a", annotated := false, annotations := [] })] }

/-- Witness for the C7 theorem at a concrete input: annotator 9 labels task
"a" with "cat"; the escrow-exhausting payment makes the next observation
report `Success`. -/
theorem submit_reward_conservation_witness :
    Crowdfund.submit annotatingContract 0 allAuth 9 "a" 1 2 3 4 "cat" =
      Except.ok (rewardOutcome annotatingContract 9 "a" 1 2 3 4 "cat"
        { cid := "a", annotated := false, annotations := [] }) ∧
    (annotatingContract.custody - 1 < 1 →
      (Crowdfund.getState (rewardOutcome annotatingContract 9 "a" 1 2 3 4 "cat"
        { cid := "a", annotated := false, annotations := [] }) 0).1 = State.Success) :=
  submit_reward_conservation annotatingContract 0 allAuth 9 "a" 1 2 3 4 "cat"
    { cid := "a", annotated := false, annotations := [] }
    (by decide) rfl (by decide) (by decide)

/-- C8: `submit` dispatch and failure modes (with the caller
authenticated).  Derived state `Funding` or `Expired` aborts for every
input; in the `Annotating` branch an empty label aborts with the validation
failure, and a non-empty label with an unknown data item aborts with the
fatal lookup failure; the `Success` branch performs no label check and
commits for every label, the empty one included.  Every aborting case is an
`Except.error`, i.e. the transaction rolls back and no ledger, task-set or
state write persists. -/
theorem submit_error_dispatch (c : OpenAnnot.Chain) (now : Nat) (auth : Nat → Bool)
    (toAddr : Nat) (cid : String) (posy posx width height : Nat) (label : String)
    (h2 : auth toAddr = true) :
    ((OpenAnnot.getState c.project now).1 = State.Funding →
      OpenAnnot.submit c now auth toAddr cid posy posx width height label =
        Except.error (Err.precondition "sale is still running")) ∧
    ((OpenAnnot.getState c.project now).1 = State.Expired →
      OpenAnnot.submit c now auth toAddr cid posy posx width height label =
        Except.error (Err.precondition "Withdraw, expired")) ∧
    ((OpenAnnot.getState c.project now).1 = State.Annotating → label = "" →
      OpenAnnot.submit c now auth toAddr cid posy posx width height label =
        Except.error (Err.validation "label cannot be empty")) ∧
    ((OpenAnnot.getState c.project now).1 = State.Annotating → label ≠ "" →
      mapGet c.project.data_points cid = none →
      OpenAnnot.submit c now auth toAddr cid posy posx width height label =
        Except.error Err.lookupFailure) ∧
    ((OpenAnnot.getState c.project now).1 = State.Success →
      exceptOk (OpenAnnot.submit c now auth toAddr cid posy posx width height label)
        = true) := by
  refine ⟨?_, ?_, ?_, ?_, ?_⟩
  · intro hs
    unfold OpenAnnot.submit
    rw [h2, if_pos rfl, hs]
  · intro hs
    unfold OpenAnnot.submit
    rw [h2, if_pos rfl, hs]
  · intro hs hl
    unfold OpenAnnot.submit
    rw [h2, if_pos rfl, hs]
    simp [hl]
  · intro hs hl hm
    unfold OpenAnnot.submit
    rw [h2, if_pos rfl, hs]
    rw [OpenAnnot.oa_getState_snd_eq c.project now]
    simp [hl, hm]
  · intro hs
    unfold OpenAnnot.submit
    rw [h2, if_pos rfl, hs]
    simp [exceptOk]

/-- Witness for the C8 theorem at a concrete input: the fresh sample chain,
whose derived state is `Funding`, with every principal authenticating. -/
theorem submit_error_dispatch_witness :
    ((OpenAnnot.getState sampleChain.project 0).1 = State.Funding →
      OpenAnnot.submit sampleChain 0 allAuth 8 "a" 1 2 3 4 "x" =
        Except.error (Err.precondition "sale is still running")) ∧
    ((OpenAnnot.getState sampleChain.project 0).1 = State.Expired →
      OpenAnnot.submit sampleChain 0 allAuth 8 "a" 1 2 3 4 "x" =
        Except.error (Err.precondition "Withdraw, expired")) ∧
    ((OpenAnnot.getState sampleChain.project 0).1 = State.Annotating → "x" ≠ "" →
      mapGet sampleChain.project.data_points "a" = none →
      OpenAnnot.submit sampleChain 0 allAuth 8 "a" 1 2 3 4 "x" =
        Except.error Err.lookupFailure) ∧
    ((OpenAnnot.getState sampleChain.project 0).1 = State.Success →
      exceptOk (OpenAnnot.submit sampleChain 0 allAuth 8 "a" 1 2 3 4 "x") = true) := by
  have h := submit_error_dispatch sampleChain 0 allAuth 8 "a" 1 2 3 4 "x" rfl
  exact ⟨h.1, h.2.1, h.2.2.2.1, h.2.2.2.2⟩

/-- C9 counterexample: `withdraw` checks the state precondition before
authentication.  On the fresh `Funding` sample chain with *no* principal
authenticating, `withdraw(user 7)` surfaces the state-precondition failure
"not expired" — not an authorization failure — so state was read and
dispatched on before auth. -/
theorem withdraw_precondition_before_auth_cex :
    OpenAnnot.withdraw sampleChain 0 noAuth 7 =
      Except.error (Err.precondition "not expired") ∧
    Err.precondition "not expired" ≠ Err.authFail :=
  ⟨by rfl, by decide⟩

/-- C9 amended: `contribute` and `submit` do check caller authentication
first — before any state is read — and abort with the authorization
failure; `withdraw` instead evaluates its derived-state assertion first, so
on a non-`Expired` project it surfaces the precondition failure whatever
the authentication, and only with derived state `Expired` does a failing
authentication surface the authorization failure. -/
theorem auth_check_order_amended (c : OpenAnnot.Chain) (now : Nat)
    (auth : Nat → Bool) (user : Nat) (amount : Int) (toAddr : Nat) (cid : String)
    (posy posx width height : Nat) (label : String) :
    (auth user = false →
      OpenAnnot.contribute c now auth user amount = Except.error Err.authFail) ∧
    (auth toAddr = false →
      OpenAnnot.submit c now auth toAddr cid posy posx width height label =
        Except.error Err.authFail) ∧
    ((OpenAnnot.getState c.project now).1 ≠ State.Expired →
      OpenAnnot.withdraw c now auth user =
        Except.error (Err.precondition "not expired")) ∧
    ((OpenAnnot.getState c.project now).1 = State.Expired → auth user = false →
      OpenAnnot.withdraw c now auth user = Except.error Err.authFail) := by
  refine ⟨?_, ?_, ?_, ?_⟩
  · intro ha
    unfold OpenAnnot.contribute
    simp [ha]
  · intro ha
    unfold OpenAnnot.submit
    simp [ha]
  · intro hs
    unfold OpenAnnot.withdraw
    simp [hs]
  · intro hs ha
    unfold OpenAnnot.withdraw
    simp [hs, ha]

/-- Witness for the amended C9 theorem at a concrete input: the fresh
sample chain with no principal authenticating. -/
theorem auth_check_order_amended_witness :
    (noAuth 7 = false →
      OpenAnnot.contribute sampleChain 0 noAuth 7 5 = Except.error Err.authFail) ∧
    (noAuth 8 = false →
      OpenAnnot.submit sampleChain 0 noAuth 8 "a" 1 2 3 4 "x" =
        Except.error Err.authFail) ∧
    ((OpenAnnot.getState sampleChain.project 0).1 ≠ State.Expired →
      OpenAnnot.withdraw sampleChain 0 noAuth 7 =
        Except.error (Err.precondition "not expired")) ∧
    ((OpenAnnot.getState sampleChain.project 0).1 = State.Expired → noAuth 7 = false →
      OpenAnnot.withdraw sampleChain 0 noAuth 7 = Except.error Err.authFail) :=
  auth_check_order_amended sampleChain 0 noAuth 7 5 8 "a" 1 2 3 4 "x"

/-- C10 counterexample: `initialize` with target 0 and deadline 0 succeeds,
but the very first `state()` observation at time 1 reports `Expired`, not
`Annotating`, although the zero starting balance meets the target — the
deadline write overrides the target transition. -/
theorem init_zero_target_past_deadline_cex :
    (Crowdfund.initContract 1 0 0 0 []).state = State.Funding ∧
    (Crowdfund.getState (Crowdfund.initContract 1 0 0 0 []) 1).1 = State.Expired ∧
    State.Expired ≠ State.Annotating := by
  decide

/-- C10 amended: `initialize` validates none of its numeric arguments — for
every target amount (zero and negative included) and every deadline (past
ones included) it succeeds and stores state `Funding`.  With target ≤ 0 the
first `state()` observation reports `Annotating` provided the deadline has
not passed; whenever the deadline has passed (whether the target is met by
the zero starting balance or positive and unmet), the first observation
reports `Expired`. -/
theorem init_no_validation_amended (recipient now deadline : Nat) (target : Int)
    (cids : List String) (now' : Nat) :
    (Crowdfund.initContract recipient now deadline target cids).state = State.Funding ∧
    (target ≤ 0 → now' ≤ deadline →
      (Crowdfund.getState (Crowdfund.initContract recipient now deadline target cids) now').1
        = State.Annotating) ∧
    (deadline < now' →
      (Crowdfund.getState (Crowdfund.initContract recipient now deadline target cids) now').1
        = State.Expired) := by
  refine ⟨rfl, ?_, ?_⟩
  · intro ht hd
    rw [Crowdfund.cf_getState_funding _ now' rfl]
    have hnd : ¬ (Crowdfund.initContract recipient now deadline target cids).deadline < now' :=
      Nat.not_lt.mpr hd
    have ht' : (Crowdfund.initContract recipient now deadline target cids).target_amount ≤
        (Crowdfund.initContract recipient now deadline target cids).custody := ht
    simp [hnd, ht']
  · intro hd
    rw [Crowdfund.cf_getState_funding _ now' rfl]
    have hd' : (Crowdfund.initContract recipient now deadline target cids).deadline < now' := hd
    simp [hd']

/-- Witness for the amended C10 theorem at a concrete input: target 0,
deadline 5, first observation at time 3 — the instance starts in `Funding`
and the first observation reports `Annotating`. -/
theorem init_no_validation_amended_witness :
    (Crowdfund.initContract 1 0 5 0 ["a"]).state = State.Funding ∧
    ((0 : Int) ≤ 0 → 3 ≤ 5 →
      (Crowdfund.getState (Crowdfund.initContract 1 0 5 0 ["a"]) 3).1 = State.Annotating) ∧
    (5 < 3 →
      (Crowdfund.getState (Crowdfund.initContract 1 0 5 0 ["a"]) 3).1 = State.Expired) :=
  init_no_validation_amended 1 0 5 0 ["a"] 3
